import Mathlib

/-!
Verification of the habitatum day-capacity appointment-scheduling core.

The development shallowly embeds the `appointments` application:

* `AvailableDay` and `Appointment` mirror the Django models in
  `appointments/models.py` (field for field; nullable columns become
  `Option`, `DateTimeField` becomes a date plus time-of-day).
* The database is a `Db`: the list of `AvailableDay` rows and the list of
  `Appointment` rows.  The `unique_together [fecha_disponible, tipo_cita]`
  constraint is the predicate `dias_sin_duplicados`.
* Query methods (`obtener_citas_agendadas`, `obtener_capacidad_disponible`,
  `esta_disponible`, `esta_en_el_pasado`) and the view-level helpers
  (`verificar_disponibilidad_dia`, `obtener_fechas_disponibles_mes`) are
  translated one to one from `appointments/models.py` and
  `appointments/views.py`.  The ambient clock `timezone.now().date()` is
  passed explicitly as the parameter `hoy`.
* The booking flow of `create_normal_appointment_view` /
  `create_priority_appointment_view` — availability check immediately
  followed by the insert — is `agendar_cita`.
-/

namespace Habitatum

/-- Calendar date (no time component), ordered lexicographically by
year, month, day — the order `DateField` values carry. -/
structure Date where
  year : Nat
  month : Nat
  day : Nat
deriving DecidableEq, Repr

/-- Strict order on dates: `a` is strictly before `b`. -/
def Date.blt (a b : Date) : Bool :=
  decide (a.year < b.year ∨ (a.year = b.year ∧
    (a.month < b.month ∨ (a.month = b.month ∧ a.day < b.day))))

/-- Non-strict order on dates (`a ≤ b`), used for the `__gte` query filter. -/
def Date.ble (a b : Date) : Bool :=
  !(Date.blt b a)

/-- Date and time of day, the value of a `DateTimeField`.  Only the date
portion matters to the capacity core (`fecha_cita__date` lookups). -/
structure DateTime where
  date : Date
  hour : Nat
  minute : Nat
deriving DecidableEq, Repr

/-- The two appointment types of `APPOINTMENT_TYPE_CHOICES`:
`normal` and `prioritaria`. -/
inductive TipoCita where
  | normal
  | prioritaria
deriving DecidableEq, Repr

/-- The credit types of `CREDIT_TYPES` on the `Appointment` model. -/
inductive TipoCredito where
  | infonavit
  | fovissste
  | bancario
  | contado
deriving DecidableEq, Repr

/-- One row of the `AvailableDay` model (`appointments/models.py`):
a date, the appointment type it admits, the maximum capacity
(`PositiveIntegerField`, default 3, validated ≥ 1) and admin notes. -/
structure AvailableDay where
  fecha_disponible : Date
  tipo_cita : TipoCita
  capacidad_maxima : Nat := 3
  notas_admin : String := ""
deriving DecidableEq, Repr

/-- One row of the `Appointment` model: client identity, owning property
(by id), scheduled date-time, type, the two nullable priority-only columns
and the optional Google Calendar event id. -/
structure Appointment where
  property_id : Nat
  nombre_cliente : String
  email_cliente : String
  telefono_cliente : String
  fecha_cita : DateTime
  tipo_cita : TipoCita
  ingresos_mensuales : Option ℚ := none
  tipo_credito : Option TipoCredito := none
  google_event_id : Option String := none
deriving DecidableEq, Repr

/-- The relational store: all `AvailableDay` rows and all `Appointment`
rows. -/
structure Db where
  availableDays : List AvailableDay
  appointments : List Appointment
deriving DecidableEq, Repr

/-- The `unique_together [[fecha_disponible, tipo_cita]]` database
constraint: two rows agreeing on the key are the same row. -/
def dias_sin_duplicados (db : Db) : Prop :=
  ∀ d1 ∈ db.availableDays, ∀ d2 ∈ db.availableDays,
    d1.fecha_disponible = d2.fecha_disponible → d1.tipo_cita = d2.tipo_cita → d1 = d2

instance (db : Db) : Decidable (dias_sin_duplicados db) := by
  unfold dias_sin_duplicados
  infer_instance

/-- `AvailableDay.obtener_citas_agendadas`: the appointments whose
`fecha_cita__date` equals this row's date and whose type matches
(`models.py`, lines 62–72). -/
def AvailableDay.obtener_citas_agendadas (dia : AvailableDay) (db : Db) :
    List Appointment :=
  db.appointments.filter fun a =>
    decide (a.fecha_cita.date = dia.fecha_disponible ∧ a.tipo_cita = dia.tipo_cita)

/-- `AvailableDay.obtener_capacidad_disponible`:
`max(0, capacidad_maxima - citas_agendadas)` (`models.py`, lines 74–82). -/
def AvailableDay.obtener_capacidad_disponible (dia : AvailableDay) (db : Db) : Int :=
  let citas_agendadas := (dia.obtener_citas_agendadas db).length
  max 0 ((dia.capacidad_maxima : Int) - (citas_agendadas : Int))

/-- `AvailableDay.esta_disponible`: remaining capacity strictly positive
(`models.py`, lines 84–91). -/
def AvailableDay.esta_disponible (dia : AvailableDay) (db : Db) : Bool :=
  decide (dia.obtener_capacidad_disponible db > 0)

/-- `AvailableDay.esta_en_el_pasado`: the row's date is strictly before
today (`models.py`, lines 93–101). -/
def AvailableDay.esta_en_el_pasado (dia : AvailableDay) (hoy : Date) : Bool :=
  Date.blt dia.fecha_disponible hoy

/-- `AvailableDay.objects.get(fecha_disponible=fecha, tipo_cita=tipo_cita)`:
`none` models the `DoesNotExist` outcome (under the unique constraint at
most one row matches). -/
def buscar_dia_disponible (db : Db) (fecha : Date) (tipo_cita : TipoCita) :
    Option AvailableDay :=
  db.availableDays.find? fun d =>
    decide (d.fecha_disponible = fecha ∧ d.tipo_cita = tipo_cita)

/-- `verificar_disponibilidad_dia` (`views.py`, lines 11–48), with the
ambient `timezone.now().date()` passed as `hoy` and the proposed datetime
already normalised to its date (the view passes `fecha_cita.date()`).
Returns the `(disponible, mensaje)` pair of the source. -/
def verificar_disponibilidad_dia (hoy : Date) (db : Db) (fecha : Date)
    (tipo_cita : TipoCita) : Bool × String :=
  if Date.blt fecha hoy then
    (false, "No puedes agendar citas en días pasados.")
  else
    match buscar_dia_disponible db fecha tipo_cita with
    | some dia_disponible =>
        if !dia_disponible.esta_disponible db then
          let citas_count := (dia_disponible.obtener_citas_agendadas db).length
          (false, "Este día ya tiene " ++ toString citas_count ++
            " citas agendadas y ha alcanzado su capacidad máxima de " ++
            toString dia_disponible.capacidad_maxima ++
            ". Por favor selecciona otro día.")
        else
          (true, "Día disponible")
    | none =>
        let tipo_texto :=
          if tipo_cita = TipoCita.normal then "citas normales" else "citas prioritarias"
        (false, "Este día no está disponible para " ++ tipo_texto ++
          ". Por favor selecciona otro día del calendario.")

/-- `obtener_fechas_disponibles_mes` (`views.py`, lines 51–76): the dates
of the configured days of the given year, month and type that are today or
later and still have capacity. -/
def obtener_fechas_disponibles_mes (hoy : Date) (db : Db) (anio mes : Nat)
    (tipo_cita : TipoCita) : List Date :=
  let dias_disponibles := db.availableDays.filter fun d =>
    decide (d.fecha_disponible.year = anio ∧ d.fecha_disponible.month = mes ∧
      d.tipo_cita = tipo_cita) && Date.ble hoy d.fecha_disponible
  (dias_disponibles.filter fun d => d.esta_disponible db).map
    fun d => d.fecha_disponible

/-- The sequential booking flow of `create_normal_appointment_view` /
`create_priority_appointment_view` (`views.py`, lines 117–151 and
215–249): run `verificar_disponibilidad_dia` on the requested date and
type; insert the appointment exactly when the check admits. -/
def agendar_cita (hoy : Date) (db : Db) (cita : Appointment) : Db :=
  if (verificar_disponibilidad_dia hoy db cita.fecha_cita.date cita.tipo_cita).1 then
    { db with appointments := cita :: db.appointments }
  else
    db

/-- A whole sequence of booking requests, processed one after the other. -/
def agendar_todas (hoy : Date) (db : Db) (citas : List Appointment) : Db :=
  citas.foldl (agendar_cita hoy) db

/-- The central capacity invariant: for every configured day, the number of
appointments on its (date, type) pair is at most its maximum capacity. -/
def capacidad_invariante (db : Db) : Prop :=
  ∀ dia ∈ db.availableDays,
    (dia.obtener_citas_agendadas db).length ≤ dia.capacidad_maxima

instance (db : Db) : Decidable (capacidad_invariante db) := by
  unfold capacidad_invariante
  infer_instance

/-- Specification-side count: the number of appointment rows whose
scheduled date-portion and type match, stated directly as a `countP`. -/
def bookedCount (db : Db) (fecha : Date) (tipo_cita : TipoCita) : Nat :=
  db.appointments.countP fun a =>
    decide (a.fecha_cita.date = fecha ∧ a.tipo_cita = tipo_cita)

/-- Specification-side strict order on calendar dates, as a proposition:
`a` falls strictly before `b`. -/
def Date.Antes (a b : Date) : Prop :=
  a.year < b.year ∨ (a.year = b.year ∧
    (a.month < b.month ∨ (a.month = b.month ∧ a.day < b.day)))

theorem Date.blt_eq_true_iff (a b : Date) : Date.blt a b = true ↔ Date.Antes a b := by
  simp [Date.blt, Date.Antes]

theorem Date.blt_self (a : Date) : Date.blt a a = false := by
  simp [Date.blt]

theorem Date.blt_eq_false_of_ble {a b : Date} (h : Date.ble a b = true) :
    Date.blt b a = false := by
  simpa [Date.ble] using h

theorem string_ne_of_length_ne {s t : String} (h : s.length ≠ t.length) : s ≠ t :=
  fun he => h (congrArg String.length he)

/-- Availability unfolded: a day is available exactly when its booked count
is strictly below its maximum capacity. -/
theorem esta_disponible_iff (dia : AvailableDay) (db : Db) :
    dia.esta_disponible db = true ↔
      (dia.obtener_citas_agendadas db).length < dia.capacidad_maxima := by
  simp only [AvailableDay.esta_disponible, AvailableDay.obtener_capacidad_disponible,
    decide_eq_true_eq, gt_iff_lt, lt_max_iff]
  omega

/-! Branch equations for `verificar_disponibilidad_dia`, one per outcome
of the source's control flow. -/

theorem verificar_eq_pasado {hoy : Date} (db : Db) {fecha : Date} (tipo : TipoCita)
    (h : Date.blt fecha hoy = true) :
    verificar_disponibilidad_dia hoy db fecha tipo =
      (false, "No puedes agendar citas en días pasados.") := by
  unfold verificar_disponibilidad_dia
  simp [h]

theorem verificar_eq_no_configurado {hoy : Date} {db : Db} {fecha : Date} {tipo : TipoCita}
    (h1 : Date.blt fecha hoy = false)
    (h2 : buscar_dia_disponible db fecha tipo = none) :
    verificar_disponibilidad_dia hoy db fecha tipo =
      (false, "Este día no está disponible para " ++
        (if tipo = TipoCita.normal then "citas normales" else "citas prioritarias") ++
        ". Por favor selecciona otro día del calendario.") := by
  unfold verificar_disponibilidad_dia
  simp [h1, h2]

theorem verificar_eq_lleno {hoy : Date} {db : Db} {fecha : Date} {tipo : TipoCita}
    {dia : AvailableDay}
    (h1 : Date.blt fecha hoy = false)
    (h2 : buscar_dia_disponible db fecha tipo = some dia)
    (h3 : dia.esta_disponible db = false) :
    verificar_disponibilidad_dia hoy db fecha tipo =
      (false, "Este día ya tiene " ++
        toString (dia.obtener_citas_agendadas db).length ++
        " citas agendadas y ha alcanzado su capacidad máxima de " ++
        toString dia.capacidad_maxima ++ ". Por favor selecciona otro día.") := by
  unfold verificar_disponibilidad_dia
  simp [h1, h2, h3]

theorem verificar_eq_disponible {hoy : Date} {db : Db} {fecha : Date} {tipo : TipoCita}
    {dia : AvailableDay}
    (h1 : Date.blt fecha hoy = false)
    (h2 : buscar_dia_disponible db fecha tipo = some dia)
    (h3 : dia.esta_disponible db = true) :
    verificar_disponibilidad_dia hoy db fecha tipo = (true, "Día disponible") := by
  unfold verificar_disponibilidad_dia
  simp [h1, h2, h3]

/-! Concrete sample data used by the witnesses. -/

/-- 10 June 2025, the date used by the spec's scenarios. -/
def fechaJun10 : Date := ⟨2025, 6, 10⟩

/-- An `AvailableDay` configured only for priority appointments on
10 June 2025 with capacity 2 (the spec's cross-type scenario). -/
def diaPrioritariaJun10 : AvailableDay :=
  { fecha_disponible := fechaJun10, tipo_cita := TipoCita.prioritaria,
    capacidad_maxima := 2 }

/-- Store holding only the priority-only configured day. -/
def dbSoloPrioritaria : Db :=
  { availableDays := [diaPrioritariaJun10], appointments := [] }

/-- C2: any proposed date strictly before today is rejected with the
past-date message whatever the store holds; a check for today itself never
yields the past-date message; and `esta_en_el_pasado` holds exactly when
the row's date falls strictly before today. -/
theorem claim_C2 :
    (∀ (hoy : Date) (db : Db) (fecha : Date) (tipo : TipoCita),
      Date.blt fecha hoy = true →
      verificar_disponibilidad_dia hoy db fecha tipo =
        (false, "No puedes agendar citas en días pasados.")) ∧
    (∀ (hoy : Date) (db : Db) (tipo : TipoCita),
      (verificar_disponibilidad_dia hoy db hoy tipo).2 ≠
        "No puedes agendar citas en días pasados.") ∧
    (∀ (dia : AvailableDay) (hoy : Date),
      dia.esta_en_el_pasado hoy = true ↔ Date.Antes dia.fecha_disponible hoy) := by
  refine ⟨?_, ?_, ?_⟩
  · intro hoy db fecha tipo h
    exact verificar_eq_pasado db tipo h
  · intro hoy db tipo h
    cases hfind : buscar_dia_disponible db hoy tipo with
    | none =>
        rw [verificar_eq_no_configurado (Date.blt_self hoy) hfind] at h
        cases tipo <;> exact absurd h (by decide)
    | some dia =>
        cases hdisp : dia.esta_disponible db with
        | true =>
            rw [verificar_eq_disponible (Date.blt_self hoy) hfind hdisp] at h
            exact absurd h (by decide)
        | false =>
            rw [verificar_eq_lleno (Date.blt_self hoy) hfind hdisp] at h
            have hl := congrArg String.length h
            simp only [String.length_append] at hl
            rw [show ("Este día ya tiene ").length = 18 from rfl,
              show (" citas agendadas y ha alcanzado su capacidad máxima de ").length = 55
                from rfl,
              show (". Por favor selecciona otro día.").length = 32 from rfl,
              show ("No puedes agendar citas en días pasados.").length = 40 from rfl] at hl
            omega
  · intro dia hoy
    simpa [AvailableDay.esta_en_el_pasado] using Date.blt_eq_true_iff dia.fecha_disponible hoy

/-- Witness for C2 at 9 June 2025 checked against today 10 June 2025. -/
theorem claim_C2_witness :
    Date.blt ⟨2025, 6, 9⟩ fechaJun10 = true ∧
    verificar_disponibilidad_dia fechaJun10 dbSoloPrioritaria ⟨2025, 6, 9⟩ TipoCita.normal =
      (false, "No puedes agendar citas en días pasados.") :=
  ⟨by decide, claim_C2.1 fechaJun10 dbSoloPrioritaria ⟨2025, 6, 9⟩ TipoCita.normal (by decide)⟩

/-- C3: a date that is today or later but configured by no `AvailableDay`
row for the requested type is rejected with the not-configured message
(the message names the requested type, so a day configured only for the
other type still rejects). -/
theorem claim_C3 :
    ∀ (hoy : Date) (db : Db) (fecha : Date) (tipo : TipoCita),
      Date.blt fecha hoy = false →
      buscar_dia_disponible db fecha tipo = none →
      verificar_disponibilidad_dia hoy db fecha tipo =
        (false, "Este día no está disponible para " ++
          (if tipo = TipoCita.normal then "citas normales" else "citas prioritarias") ++
          ". Por favor selecciona otro día del calendario.") := by
  intro hoy db fecha tipo hpast hfind
  exact verificar_eq_no_configurado hpast hfind

/-- Witness for C3: the spec's cross-type scenario — 10 June 2025 is
configured only for priority appointments, and the normal-type check on
that same date is rejected as not configured. -/
theorem claim_C3_witness :
    Date.blt fechaJun10 fechaJun10 = false ∧
    buscar_dia_disponible dbSoloPrioritaria fechaJun10 TipoCita.normal = none ∧
    verificar_disponibilidad_dia fechaJun10 dbSoloPrioritaria fechaJun10 TipoCita.normal =
      (false,
        "Este día no está disponible para citas normales. Por favor selecciona otro día del calendario.") := by
  refine ⟨by decide, by decide, ?_⟩
  rw [claim_C3 fechaJun10 dbSoloPrioritaria fechaJun10 TipoCita.normal (by decide) (by decide)]
  decide

/-- Normal-type configured day on 10 June 2025 with the default capacity 3. -/
def diaNormalJun10 : AvailableDay :=
  { fecha_disponible := fechaJun10, tipo_cita := TipoCita.normal, capacidad_maxima := 3 }

/-- A normal appointment on the morning of 10 June 2025. -/
def citaAna : Appointment :=
  { property_id := 1, nombre_cliente := "Ana", email_cliente := "ana@example.com",
    telefono_cliente := "2221234567", fecha_cita := ⟨fechaJun10, 10, 0⟩,
    tipo_cita := TipoCita.normal }

/-- A second normal appointment on 10 June 2025. -/
def citaBruno : Appointment :=
  { property_id := 1, nombre_cliente := "Bruno", email_cliente := "bruno@example.com",
    telefono_cliente := "2229876543", fecha_cita := ⟨fechaJun10, 11, 0⟩,
    tipo_cita := TipoCita.normal }

/-- Store with the capacity-3 normal day and two of its three slots taken. -/
def dbCasiLleno : Db :=
  { availableDays := [diaNormalJun10], appointments := [citaAna, citaBruno] }

/-- A priority appointment on 10 June 2025, with the credit-advisory data. -/
def citaCarla : Appointment :=
  { property_id := 2, nombre_cliente := "Carla", email_cliente := "carla@example.com",
    telefono_cliente := "2227654321", fecha_cita := ⟨fechaJun10, 9, 30⟩,
    tipo_cita := TipoCita.prioritaria, ingresos_mensuales := some 20000,
    tipo_credito := some TipoCredito.infonavit }

/-- A second priority appointment on 10 June 2025. -/
def citaDiego : Appointment :=
  { property_id := 2, nombre_cliente := "Diego", email_cliente := "diego@example.com",
    telefono_cliente := "2223334444", fecha_cita := ⟨fechaJun10, 12, 0⟩,
    tipo_cita := TipoCita.prioritaria, ingresos_mensuales := some 18000,
    tipo_credito := some TipoCredito.bancario }

/-- Store where the capacity-2 priority day holds exactly 2 appointments. -/
def dbLlenoPrioritaria : Db :=
  { availableDays := [diaPrioritariaJun10], appointments := [citaCarla, citaDiego] }

/-- C4: a configured day (today or later) whose booked count equals its
maximum capacity is not available, the check rejects, and the rejection
message carries both the booked count and the maximum capacity. -/
theorem claim_C4 :
    ∀ (hoy : Date) (db : Db) (fecha : Date) (tipo : TipoCita) (dia : AvailableDay),
      Date.blt fecha hoy = false →
      buscar_dia_disponible db fecha tipo = some dia →
      (dia.obtener_citas_agendadas db).length = dia.capacidad_maxima →
      dia.esta_disponible db = false ∧
      (verificar_disponibilidad_dia hoy db fecha tipo).1 = false ∧
      ∃ s1 s2 s3 : String,
        (verificar_disponibilidad_dia hoy db fecha tipo).2 =
          s1 ++ toString (dia.obtener_citas_agendadas db).length ++ s2 ++
            toString dia.capacidad_maxima ++ s3 := by
  intro hoy db fecha tipo dia hpast hfind hlen
  have hdisp : dia.esta_disponible db = false := by
    cases hb : dia.esta_disponible db with
    | false => rfl
    | true => exact absurd ((esta_disponible_iff dia db).mp hb) (by omega)
  refine ⟨hdisp, ?_, ?_⟩
  · rw [verificar_eq_lleno hpast hfind hdisp]
  · exact ⟨"Este día ya tiene ",
      " citas agendadas y ha alcanzado su capacidad máxima de ",
      ". Por favor selecciona otro día.",
      by rw [verificar_eq_lleno hpast hfind hdisp]⟩

/-- Witness for C4: the priority day of capacity 2 holding exactly 2
appointments on 10 June 2025, checked with today = 10 June 2025. -/
theorem claim_C4_witness :
    Date.blt fechaJun10 fechaJun10 = false ∧
    buscar_dia_disponible dbLlenoPrioritaria fechaJun10 TipoCita.prioritaria =
      some diaPrioritariaJun10 ∧
    (diaPrioritariaJun10.obtener_citas_agendadas dbLlenoPrioritaria).length =
      diaPrioritariaJun10.capacidad_maxima ∧
    (diaPrioritariaJun10.esta_disponible dbLlenoPrioritaria = false ∧
      (verificar_disponibilidad_dia fechaJun10 dbLlenoPrioritaria fechaJun10
        TipoCita.prioritaria).1 = false ∧
      ∃ s1 s2 s3 : String,
        (verificar_disponibilidad_dia fechaJun10 dbLlenoPrioritaria fechaJun10
          TipoCita.prioritaria).2 =
          s1 ++ toString
              (diaPrioritariaJun10.obtener_citas_agendadas dbLlenoPrioritaria).length ++
            s2 ++ toString diaPrioritariaJun10.capacidad_maxima ++ s3) :=
  ⟨by decide, by decide, by decide,
    claim_C4 fechaJun10 dbLlenoPrioritaria fechaJun10 TipoCita.prioritaria
      diaPrioritariaJun10 (by decide) (by decide) (by decide)⟩

/-- C5: `obtener_citas_agendadas` counts exactly the appointment rows
whose date-portion and type match (the spec's `bookedCount`), the
remaining capacity is `max 0 (capacidad_maxima - bookedCount)`, and it is
never negative. -/
theorem claim_C5 :
    ∀ (dia : AvailableDay) (db : Db),
      (dia.obtener_citas_agendadas db).length =
        bookedCount db dia.fecha_disponible dia.tipo_cita ∧
      dia.obtener_capacidad_disponible db =
        max 0 ((dia.capacidad_maxima : Int) -
          (bookedCount db dia.fecha_disponible dia.tipo_cita : Int)) ∧
      0 ≤ dia.obtener_capacidad_disponible db := by
  intro dia db
  have hcount : (dia.obtener_citas_agendadas db).length =
      bookedCount db dia.fecha_disponible dia.tipo_cita := by
    simp [AvailableDay.obtener_citas_agendadas, bookedCount,
      List.countP_eq_length_filter]
  refine ⟨hcount, ?_, ?_⟩
  · simp [AvailableDay.obtener_capacidad_disponible, hcount]
  · exact le_max_left 0 _

/-- C6: `esta_disponible` holds exactly when the remaining capacity is
strictly positive; and a configured day (today or later) of capacity `N ≥ 1`
with exactly `N - 1` booked appointments is admitted by the check and has
remaining capacity 1. -/
theorem claim_C6 :
    (∀ (dia : AvailableDay) (db : Db),
      dia.esta_disponible db = true ↔ dia.obtener_capacidad_disponible db > 0) ∧
    (∀ (hoy : Date) (db : Db) (fecha : Date) (tipo : TipoCita) (dia : AvailableDay),
      Date.blt fecha hoy = false →
      buscar_dia_disponible db fecha tipo = some dia →
      1 ≤ dia.capacidad_maxima →
      (dia.obtener_citas_agendadas db).length = dia.capacidad_maxima - 1 →
      (verificar_disponibilidad_dia hoy db fecha tipo).1 = true ∧
      dia.obtener_capacidad_disponible db = 1) := by
  constructor
  · intro dia db
    simp [AvailableDay.esta_disponible]
  · intro hoy db fecha tipo dia hpast hfind hcap hlen
    have hdisp : dia.esta_disponible db = true := by
      rw [esta_disponible_iff]
      omega
    refine ⟨?_, ?_⟩
    · rw [verificar_eq_disponible hpast hfind hdisp]
    · simp only [AvailableDay.obtener_capacidad_disponible, hlen]
      omega

/-- Witness for C6: the capacity-3 normal day on 10 June 2025 with 2 of
its 3 slots taken is admitted and has remaining capacity 1. -/
theorem claim_C6_witness :
    Date.blt fechaJun10 fechaJun10 = false ∧
    buscar_dia_disponible dbCasiLleno fechaJun10 TipoCita.normal = some diaNormalJun10 ∧
    1 ≤ diaNormalJun10.capacidad_maxima ∧
    (diaNormalJun10.obtener_citas_agendadas dbCasiLleno).length =
      diaNormalJun10.capacidad_maxima - 1 ∧
    ((verificar_disponibilidad_dia fechaJun10 dbCasiLleno fechaJun10 TipoCita.normal).1 =
        true ∧
      diaNormalJun10.obtener_capacidad_disponible dbCasiLleno = 1) :=
  ⟨by decide, by decide, by decide, by decide,
    claim_C6.2 fechaJun10 dbCasiLleno fechaJun10 TipoCita.normal diaNormalJun10
      (by decide) (by decide) (by decide) (by decide)⟩

/-- A day whose capacity 1 is exceeded by its two booked appointments:
the overbooked state the spec's race discussion admits. -/
def diaSaturadoJun10 : AvailableDay :=
  { fecha_disponible := fechaJun10, tipo_cita := TipoCita.normal, capacidad_maxima := 1 }

/-- Store where `diaSaturadoJun10` holds 2 appointments against capacity 1. -/
def dbSobreagendado : Db :=
  { availableDays := [diaSaturadoJun10], appointments := [citaAna, citaBruno] }

/-- Counterexample to C7 as stated: on an overbooked day (2 appointments,
capacity 1) increasing the capacity from 1 to 2 leaves `esta_disponible`
false, because the new capacity still does not exceed the booked count. -/
theorem claim_C7_counterexample :
    diaSaturadoJun10.esta_disponible dbSobreagendado = false ∧
    diaSaturadoJun10.capacidad_maxima < 2 ∧
    AvailableDay.esta_disponible { diaSaturadoJun10 with capacidad_maxima := 2 }
      dbSobreagendado = false := by
  decide

/-- C7 (amended): increasing the capacity of a full day makes it available
exactly when the new capacity strictly exceeds the current booked count;
in particular, any increase works when the day is exactly at capacity. -/
theorem claim_C7 :
    (∀ (dia : AvailableDay) (db : Db) (m : Nat),
      dia.esta_disponible db = false →
      (dia.obtener_citas_agendadas db).length < m →
      AvailableDay.esta_disponible { dia with capacidad_maxima := m } db = true) ∧
    (∀ (dia : AvailableDay) (db : Db) (m : Nat),
      (dia.obtener_citas_agendadas db).length = dia.capacidad_maxima →
      dia.capacidad_maxima < m →
      AvailableDay.esta_disponible { dia with capacidad_maxima := m } db = true) := by
  have hmismo : ∀ (dia : AvailableDay) (db : Db) (m : Nat),
      AvailableDay.obtener_citas_agendadas { dia with capacidad_maxima := m } db =
        dia.obtener_citas_agendadas db := fun _ _ _ => rfl
  have hcap : ∀ (dia : AvailableDay) (m : Nat),
      ({ dia with capacidad_maxima := m } : AvailableDay).capacidad_maxima = m :=
    fun _ _ => rfl
  constructor
  · intro dia db m _ hlt
    rw [esta_disponible_iff, hmismo, hcap]
    exact hlt
  · intro dia db m hlen hlt
    rw [esta_disponible_iff, hmismo, hcap]
    omega

/-- Witness for the amended C7: raising the overbooked day's capacity to 3,
which strictly exceeds the booked count 2, makes it available. -/
theorem claim_C7_witness :
    diaSaturadoJun10.esta_disponible dbSobreagendado = false ∧
    (diaSaturadoJun10.obtener_citas_agendadas dbSobreagendado).length < 3 ∧
    AvailableDay.esta_disponible { diaSaturadoJun10 with capacidad_maxima := 3 }
      dbSobreagendado = true :=
  ⟨by decide, by decide,
    claim_C7.1 diaSaturadoJun10 dbSobreagendado 3 (by decide) (by decide)⟩

/-- C8: the check is a total function — every input yields either the
admission pair or a rejection pair carrying one of the three
human-readable reasons (past date, day not configured for the requested
type, day at full capacity with the counts).  No other outcome exists;
side-effect freedom holds by construction, the checker consuming the
store without producing one. -/
theorem claim_C8 :
    ∀ (hoy : Date) (db : Db) (fecha : Date) (tipo : TipoCita),
      (verificar_disponibilidad_dia hoy db fecha tipo = (true, "Día disponible")) ∨
      ((verificar_disponibilidad_dia hoy db fecha tipo).1 = false ∧
        ((verificar_disponibilidad_dia hoy db fecha tipo).2 =
            "No puedes agendar citas en días pasados." ∨
          (∃ t : String, (verificar_disponibilidad_dia hoy db fecha tipo).2 =
            "Este día no está disponible para " ++ t ++
              ". Por favor selecciona otro día del calendario.") ∨
          (∃ n m : Nat, (verificar_disponibilidad_dia hoy db fecha tipo).2 =
            "Este día ya tiene " ++ toString n ++
              " citas agendadas y ha alcanzado su capacidad máxima de " ++
              toString m ++ ". Por favor selecciona otro día."))) := by
  intro hoy db fecha tipo
  cases hpast : Date.blt fecha hoy with
  | true =>
      right
      rw [verificar_eq_pasado db tipo hpast]
      exact ⟨rfl, Or.inl rfl⟩
  | false =>
      cases hfind : buscar_dia_disponible db fecha tipo with
      | none =>
          right
          rw [verificar_eq_no_configurado hpast hfind]
          exact ⟨rfl, Or.inr (Or.inl ⟨_, rfl⟩)⟩
      | some dia =>
          cases hdisp : dia.esta_disponible db with
          | true =>
              left
              exact verificar_eq_disponible hpast hfind hdisp
          | false =>
              right
              rw [verificar_eq_lleno hpast hfind hdisp]
              exact ⟨rfl, Or.inr (Or.inr ⟨_, _, rfl⟩)⟩

/-- C10: every date the monthly listing returns comes from a configured
day of the requested type, lies in the requested year and month, is today
or later, and still has capacity. -/
theorem claim_C10 :
    ∀ (hoy : Date) (db : Db) (anio mes : Nat) (tipo : TipoCita) (f : Date),
      f ∈ obtener_fechas_disponibles_mes hoy db anio mes tipo →
      ∃ dia, dia ∈ db.availableDays ∧ dia.fecha_disponible = f ∧
        dia.tipo_cita = tipo ∧ f.year = anio ∧ f.month = mes ∧
        Date.ble hoy f = true ∧ Date.blt f hoy = false ∧
        dia.esta_disponible db = true := by
  intro hoy db anio mes tipo f hf
  unfold obtener_fechas_disponibles_mes at hf
  simp only [List.mem_map, List.mem_filter, Bool.and_eq_true, decide_eq_true_eq] at hf
  obtain ⟨dia, ⟨⟨hmem, ⟨hy, hm, ht⟩, hble⟩, hdisp⟩, rfl⟩ := hf
  exact ⟨dia, hmem, rfl, ht, hy, hm, hble, Date.blt_eq_false_of_ble hble, hdisp⟩

/-- Witness for C10: with today = 1 June 2025 the June 2025 normal-type
listing over `dbCasiLleno` contains 10 June 2025, and the guarantees hold
for it. -/
theorem claim_C10_witness :
    fechaJun10 ∈ obtener_fechas_disponibles_mes ⟨2025, 6, 1⟩ dbCasiLleno 2025 6
      TipoCita.normal ∧
    ∃ dia, dia ∈ dbCasiLleno.availableDays ∧ dia.fecha_disponible = fechaJun10 ∧
      dia.tipo_cita = TipoCita.normal ∧ fechaJun10.year = 2025 ∧ fechaJun10.month = 6 ∧
      Date.ble ⟨2025, 6, 1⟩ fechaJun10 = true ∧
      Date.blt fechaJun10 ⟨2025, 6, 1⟩ = false ∧
      dia.esta_disponible dbCasiLleno = true :=
  ⟨by decide,
    claim_C10 ⟨2025, 6, 1⟩ dbCasiLleno 2025 6 TipoCita.normal fechaJun10 (by decide)⟩

/-- What an admission tells us: the date is not past, the lookup found a
configured row, and that row still had capacity. -/
theorem verificar_admite {hoy : Date} {db : Db} {fecha : Date} {tipo : TipoCita}
    (h : (verificar_disponibilidad_dia hoy db fecha tipo).1 = true) :
    Date.blt fecha hoy = false ∧
    ∃ dia, buscar_dia_disponible db fecha tipo = some dia ∧
      dia.esta_disponible db = true := by
  cases hpast : Date.blt fecha hoy with
  | true =>
      rw [verificar_eq_pasado db tipo hpast] at h
      simp at h
  | false =>
      cases hfind : buscar_dia_disponible db fecha tipo with
      | none =>
          rw [verificar_eq_no_configurado hpast hfind] at h
          simp at h
      | some dia =>
          cases hdisp : dia.esta_disponible db with
          | false =>
              rw [verificar_eq_lleno hpast hfind hdisp] at h
              simp at h
          | true => exact ⟨rfl, dia, rfl, hdisp⟩

/-- Booking never touches the configured days. -/
theorem agendar_cita_availableDays (hoy : Date) (db : Db) (cita : Appointment) :
    (agendar_cita hoy db cita).availableDays = db.availableDays := by
  unfold agendar_cita
  split <;> rfl

/-- One step of the sequential booking flow preserves the capacity
invariant, given the unique-key constraint on configured days. -/
theorem agendar_cita_preserva_invariante (hoy : Date) (db : Db) (cita : Appointment)
    (hu : dias_sin_duplicados db) (hinv : capacidad_invariante db) :
    capacidad_invariante (agendar_cita hoy db cita) := by
  unfold agendar_cita
  split
  case isFalse => exact hinv
  case isTrue hok =>
    obtain ⟨hpast, dia0, hfind, hdisp0⟩ := verificar_admite hok
    have hmem0 : dia0 ∈ db.availableDays := List.mem_of_find?_eq_some hfind
    have hkey0 : dia0.fecha_disponible = cita.fecha_cita.date ∧
        dia0.tipo_cita = cita.tipo_cita := by
      have hp := List.find?_some hfind
      simpa using hp
    intro dia hdia
    have hdia' : dia ∈ db.availableDays := hdia
    have hfil : AvailableDay.obtener_citas_agendadas dia
        { db with appointments := cita :: db.appointments } =
        if decide (cita.fecha_cita.date = dia.fecha_disponible ∧
            cita.tipo_cita = dia.tipo_cita) = true
        then cita :: dia.obtener_citas_agendadas db
        else dia.obtener_citas_agendadas db := by
      simp [AvailableDay.obtener_citas_agendadas, List.filter_cons]
    by_cases hpc : cita.fecha_cita.date = dia.fecha_disponible ∧
        cita.tipo_cita = dia.tipo_cita
    · have hdia0 : dia = dia0 := by
        apply hu dia hdia' dia0 hmem0
        · rw [← hpc.1, hkey0.1]
        · rw [← hpc.2, hkey0.2]
      subst hdia0
      have hlt : (dia.obtener_citas_agendadas db).length < dia.capacidad_maxima :=
        (esta_disponible_iff dia db).mp hdisp0
      rw [hfil, if_pos (decide_eq_true hpc)]
      exact hlt
    · rw [hfil, if_neg (fun h => hpc (of_decide_eq_true h))]
      exact hinv dia hdia'

/-- C1: starting from any store satisfying the unique-key constraint and
the capacity invariant, any sequence of booking requests, each handled by
the availability check immediately followed by the insert, keeps every
configured day's appointment count at or below its maximum capacity. -/
theorem claim_C1 :
    ∀ (hoy : Date) (db : Db) (citas : List Appointment),
      dias_sin_duplicados db → capacidad_invariante db →
      capacidad_invariante (agendar_todas hoy db citas) := by
  intro hoy db citas
  induction citas generalizing db with
  | nil =>
      intro _ hinv
      simpa [agendar_todas] using hinv
  | cons c cs ih =>
      intro hu hinv
      have hdays := agendar_cita_availableDays hoy db c
      have hu' : dias_sin_duplicados (agendar_cita hoy db c) := by
        unfold dias_sin_duplicados
        rw [hdays]
        exact hu
      have hinv' := agendar_cita_preserva_invariante hoy db c hu hinv
      simpa [agendar_todas, List.foldl_cons] using
        ih (agendar_cita hoy db c) hu' hinv'

/-- Empty store configured with the capacity-3 normal day. -/
def dbInicial : Db := { availableDays := [diaNormalJun10], appointments := [] }

/-- Witness for C1: four booking requests against the capacity-3 day —
the invariant still holds afterwards (the fourth matching request is
rejected, the priority one is not configured). -/
theorem claim_C1_witness :
    dias_sin_duplicados dbInicial ∧ capacidad_invariante dbInicial ∧
    capacidad_invariante
      (agendar_todas ⟨2025, 6, 1⟩ dbInicial [citaAna, citaBruno, citaCarla, citaAna]) :=
  ⟨by decide, by decide,
    claim_C1 ⟨2025, 6, 1⟩ dbInicial [citaAna, citaBruno, citaCarla, citaAna]
      (by decide) (by decide)⟩

/-! Embedding of the two booking forms (`appointments/forms.py`) at the
granularity the booking views observe: a submission is either valid and
yields the saved `Appointment` row (`form.save(commit=False)` plus the
view's assignments of `property` and `tipo_cita`), or invalid, or aborts
with an uncaught exception.  Form-level required-ness follows the
framework rule the forms rely on: a model field with `blank=True`
(`ingresos_mensuales`, `tipo_credito`) yields an optional form field —
the `required: True` widget attributes are client-side HTML only.
`clean_ingresos_mensuales` compares the cleaned value against zero, so a
missing income evaluates `None <= 0` and aborts with a `TypeError`
(`servidorFallo` below) before any row is created. -/

/-- Outcome of submitting a booking form. -/
inductive FormResult where
  | ok (cita : Appointment)
  | invalid (errores : List String)
  | servidorFallo
deriving DecidableEq, Repr

/-- The phone normalisation of `clean_telefono_cliente`: drop spaces and
hyphens (working over the character list of the string). -/
def telefono_limpio (t : String) : List Char :=
  t.data.filter fun c => !(c == ' ' || c == '-')

/-- `clean_telefono_cliente`: after normalisation the phone must be all
digits (Python's `isdigit`, false on the empty string) and at least 10
digits long. -/
def telefono_valido (t : String) : Bool :=
  let limpio := telefono_limpio t
  !limpio.isEmpty && limpio.all Char.isDigit && decide (10 ≤ limpio.length)

/-- Minimal model of `EmailField` validation: non-empty and carrying an
`@`. -/
def email_valido (e : String) : Bool :=
  !e.data.isEmpty && e.data.contains '@'

/-- The fields `NormalAppointmentForm` collects (`forms.py`, Meta.fields):
client identity and the requested date; the priority-only columns are not
on the form. -/
structure NormalFormData where
  nombre_cliente : String
  email_cliente : String
  telefono_cliente : String
  fecha_cita : Option DateTime
deriving DecidableEq, Repr

/-- The fields `PriorityAppointmentForm` collects: the normal fields plus
the optional income and credit-type entries. -/
structure PriorityFormData where
  nombre_cliente : String
  email_cliente : String
  telefono_cliente : String
  fecha_cita : Option DateTime
  ingresos_mensuales : Option ℚ
  tipo_credito : Option TipoCredito
deriving DecidableEq, Repr

/-- `create_normal_appointment_view`'s form handling: validate the four
collected fields; on success save the row with `tipo_cita = 'normal'` and
the priority-only columns left at their null defaults. -/
def validar_cita_normal (property_id : Nat) (d : NormalFormData) : FormResult :=
  match d.fecha_cita with
  | none => FormResult.invalid ["La fecha de la cita es obligatoria."]
  | some fecha_cita =>
      if !d.nombre_cliente.data.isEmpty && email_valido d.email_cliente &&
          telefono_valido d.telefono_cliente then
        FormResult.ok
          { property_id := property_id, nombre_cliente := d.nombre_cliente,
            email_cliente := d.email_cliente,
            telefono_cliente := d.telefono_cliente, fecha_cita := fecha_cita,
            tipo_cita := TipoCita.normal }
      else
        FormResult.invalid ["Por favor corrige los errores en el formulario."]

/-- `create_priority_appointment_view`'s form handling: a missing income
aborts field cleaning (`None <= 0`), whatever the other fields hold; a
present income must be non-negative (`MinValueValidator(0)`) and strictly
positive (`clean_ingresos_mensuales`); the credit type is optional
(`blank=True`) and saved as submitted; on success the row carries
`tipo_cita = 'prioritaria'`. -/
def validar_cita_prioritaria (property_id : Nat) (d : PriorityFormData) : FormResult :=
  match d.ingresos_mensuales with
  | none => FormResult.servidorFallo
  | some ingresos =>
      match d.fecha_cita with
      | none => FormResult.invalid ["La fecha de la cita es obligatoria."]
      | some fecha_cita =>
          if !d.nombre_cliente.data.isEmpty && email_valido d.email_cliente &&
              telefono_valido d.telefono_cliente && decide (0 < ingresos) then
            FormResult.ok
              { property_id := property_id, nombre_cliente := d.nombre_cliente,
                email_cliente := d.email_cliente,
                telefono_cliente := d.telefono_cliente, fecha_cita := fecha_cita,
                tipo_cita := TipoCita.prioritaria,
                ingresos_mensuales := some ingresos,
                tipo_credito := d.tipo_credito }
          else
            FormResult.invalid ["Por favor corrige los errores en el formulario."]

/-- A priority submission that omits the credit type but is otherwise
complete and well-formed. -/
def datosPrioritariaSinCredito : PriorityFormData :=
  { nombre_cliente := "Elena", email_cliente := "elena@example.com",
    telefono_cliente := "2225556666", fecha_cita := some ⟨fechaJun10, 13, 0⟩,
    ingresos_mensuales := some 15000, tipo_credito := none }

/-- The row that submission produces: a priority appointment with no
credit type. -/
def citaElenaSinCredito : Appointment :=
  { property_id := 3, nombre_cliente := "Elena", email_cliente := "elena@example.com",
    telefono_cliente := "2225556666", fecha_cita := ⟨fechaJun10, 13, 0⟩,
    tipo_cita := TipoCita.prioritaria, ingresos_mensuales := some 15000,
    tipo_credito := none }

/-- Counterexample to C9 as stated: the priority form accepts a
submission without a credit type (the model declares the column
`null=True, blank=True`, so the form does not require it server-side),
creating a Priority appointment whose `tipo_credito` is absent. -/
theorem claim_C9_counterexample :
    validar_cita_prioritaria 3 datosPrioritariaSinCredito =
      FormResult.ok citaElenaSinCredito ∧
    citaElenaSinCredito.tipo_cita = TipoCita.prioritaria ∧
    citaElenaSinCredito.tipo_credito = none := by
  decide

/-- C9 (amended): appointments created by the normal flow always have
both priority-only columns null; appointments created by the priority
flow always carry a strictly positive monthly income (a missing income
aborts the request before any row exists), but their credit type is
whatever was submitted and may be absent. -/
theorem claim_C9 :
    (∀ (property_id : Nat) (d : NormalFormData) (cita : Appointment),
      validar_cita_normal property_id d = FormResult.ok cita →
      cita.tipo_cita = TipoCita.normal ∧ cita.ingresos_mensuales = none ∧
        cita.tipo_credito = none) ∧
    (∀ (property_id : Nat) (d : PriorityFormData) (cita : Appointment),
      validar_cita_prioritaria property_id d = FormResult.ok cita →
      cita.tipo_cita = TipoCita.prioritaria ∧
        ∃ ingresos, cita.ingresos_mensuales = some ingresos ∧ 0 < ingresos) := by
  constructor
  · intro property_id d cita h
    obtain ⟨nombre, email, telefono, fc⟩ := d
    cases fc with
    | none => simp [validar_cita_normal] at h
    | some fecha =>
        simp only [validar_cita_normal] at h
        split at h
        · injection h with h'
          subst h'
          exact ⟨rfl, rfl, rfl⟩
        · simp at h
  · intro property_id d cita h
    obtain ⟨nombre, email, telefono, fc, ingresosOpt, credito⟩ := d
    cases ingresosOpt with
    | none => simp [validar_cita_prioritaria] at h
    | some ingresos =>
        cases fc with
        | none => simp [validar_cita_prioritaria] at h
        | some fecha =>
            simp only [validar_cita_prioritaria] at h
            split at h
            · rename_i hcond
              injection h with h'
              subst h'
              simp only [Bool.and_eq_true, decide_eq_true_eq] at hcond
              exact ⟨rfl, ingresos, rfl, hcond.2⟩
            · simp at h

/-- Witness for the amended C9: the credit-type-free priority submission
yields a priority row carrying its positive income. -/
theorem claim_C9_witness :
    validar_cita_prioritaria 3 datosPrioritariaSinCredito =
      FormResult.ok citaElenaSinCredito ∧
    (citaElenaSinCredito.tipo_cita = TipoCita.prioritaria ∧
      ∃ ingresos, citaElenaSinCredito.ingresos_mensuales = some ingresos ∧
        0 < ingresos) :=
  ⟨by decide,
    claim_C9.2 3 datosPrioritariaSinCredito citaElenaSinCredito (by decide)⟩

end Habitatum
